import Mathlib

/-!
Verification of the date-range selection core of the `clocket-ui` repository
(`src/registry/new-york/ui/date-range-picker.tsx`).

Shallow embedding conventions:
* A JavaScript `Date` is modelled by its epoch-millisecond time value, an
  `Int`; the Invalid Date (whose time value is NaN) is modelled by `none`,
  so `JSDate := Option Int`.  The host timezone is taken to be UTC, so the
  local calendar day of a time value `ms` is `ms / 86400000` (floor division).
* `react-day-picker`'s `DateRange` has two optional bounds (`from?: Date`,
  `to?: Date`); an optional `Date` is `Option JSDate`.
* Each event handler of the component is a function from the pre-state
  (popover `open` flag and `tempRange` draft) to the post-state paired with
  the at-most-one `onChange` invocation it performs; the payload of an
  `onChange` call is `Option DateRange` (`none` models `undefined`, i.e.
  "no selection").  The committed value (`value` prop) is owned by the
  caller and enters only as a read-only argument where the code reads it.
* Fallible operations return `Option`: `date-fns`'s `format` throws a
  `RangeError` on an invalid date, modelled as `none`.
-/

namespace ClocketUI

/-- A JavaScript `Date`: its epoch-millisecond time value, or `none` for the
Invalid Date (NaN time value). -/
abbrev JSDate := Option Int

/-- `date-fns` `isValid(date)`: `!isNaN(date.getTime())`. -/
def isValid (d : JSDate) : Bool := d.isSome

/-- JavaScript relational `<=` on two `Date` objects: both are coerced to
their numeric time values and any comparison involving NaN is false. -/
def jsDateLe (a b : JSDate) : Bool :=
  match a, b with
  | some x, some y => decide (x ≤ y)
  | _, _ => false

/-- JavaScript `a.getTime() === b.getTime()`: numeric equality of time
values; false whenever either is NaN (the Invalid Date). -/
def jsSameTime (a b : JSDate) : Bool :=
  match a, b with
  | some x, some y => decide (x = y)
  | _, _ => false

/-- `react-day-picker`'s `DateRange`: two optional `Date` bounds.  The field
names carry a trailing underscore because `from` is a Lean keyword. -/
structure DateRange where
  from_ : Option JSDate
  to_ : Option JSDate
deriving DecidableEq, Repr

/-- A predefined shortcut range (`PredefinedRange` interface of the source). -/
structure PredefinedRange where
  label : String
  value : DateRange
  description : Option String
deriving DecidableEq, Repr

/-- Source `isValidDateRange`: false unless both bounds are present
(`!range?.from || !range?.to` — a `Date` object, even an invalid one, is
truthy, so this is exactly a presence test), then
`isValid(range.from) && isValid(range.to) && range.from <= range.to`. -/
def isValidDateRange (range : Option DateRange) : Bool :=
  match range with
  | none => false
  | some r =>
    match r.from_, r.to_ with
    | some f, some t => isValid f && isValid t && jsDateLe f t
    | _, _ => false

/-- The local (UTC-host) calendar day containing the time value `ms`:
floor division by the 86 400 000 milliseconds of a day. -/
def dayOfMs (ms : Int) : Int := ms / 86400000

/-- Civil (proleptic Gregorian) date `(year, month, day)` of a day count
relative to 1970-01-01, by Howard Hinnant's `civil_from_days` algorithm,
which is what a correct `Date` implementation computes. -/
def civilFromDays (z : Int) : Int × Int × Int :=
  let zz := z + 719468
  let era := zz / 146097
  let doe := zz - era * 146097
  let yoe := (doe - doe / 1460 + doe / 36524 - doe / 146096) / 365
  let y := yoe + era * 400
  let doy := doe - (365 * yoe + yoe / 4 - yoe / 100)
  let mp := (5 * doy + 2) / 153
  let d := doy - (153 * mp + 2) / 5 + 1
  let m := mp + (if mp < 10 then 3 else -9)
  (y + (if m ≤ 2 then 1 else 0), m, d)

/-- Day count relative to 1970-01-01 of a civil date, by Hinnant's
`days_from_civil` algorithm (with floor division throughout). -/
def daysFromCivil (y m d : Int) : Int :=
  let yy := y - (if m ≤ 2 then 1 else 0)
  let era := yy / 400
  let yoe := yy - era * 400
  let doy := (153 * (m + (if 2 < m then -3 else 9)) + 2) / 5 + d - 1
  let doe := yoe * 365 + yoe / 4 - yoe / 100 + doy
  era * 146097 + doe - 719468

/-- JavaScript `Date.prototype.toDateString()`, modelled up to string
equality (the only use the source makes of it): a valid date prints its
local calendar date (the weekday it also prints is determined by the date),
and every Invalid Date prints the same string `"Invalid Date"`, here `none`. -/
def toDateString (d : JSDate) : Option (Int × Int × Int) :=
  d.map (fun ms => civilFromDays (dayOfMs ms))

/-- Source `isRangeEqual`: false unless both ranges are present and complete,
then `toDateString` equality on both bounds (a day-granularity comparison). -/
def isRangeEqual (range1 range2 : Option DateRange) : Bool :=
  match range1, range2 with
  | some r1, some r2 =>
    match r1.from_, r1.to_, r2.from_, r2.to_ with
    | some f1, some t1, some f2, some t2 =>
      decide (toDateString f1 = toDateString f2) &&
        decide (toDateString t1 = toDateString t2)
    | _, _, _, _ => false
  | _, _ => false

/-- Abbreviated month name, the `LLL` token of `date-fns` `format`. -/
def monthAbbrev (m : Int) : String :=
  if m = 1 then "Jan" else if m = 2 then "Feb" else if m = 3 then "Mar"
  else if m = 4 then "Apr" else if m = 5 then "May" else if m = 6 then "Jun"
  else if m = 7 then "Jul" else if m = 8 then "Aug" else if m = 9 then "Sep"
  else if m = 10 then "Oct" else if m = 11 then "Nov" else "Dec"

/-- Zero-padded two-digit day, the `dd` token of `date-fns` `format`. -/
def pad2 (d : Int) : String :=
  if 0 ≤ d ∧ d < 10 then "0" ++ toString d else toString d

/-- The string `format(date, "LLL dd, y")` produces for a valid date with
time value `ms` on a UTC host. -/
def formatLLL (ms : Int) : String :=
  let c := civilFromDays (dayOfMs ms)
  monthAbbrev c.2.1 ++ " " ++ pad2 c.2.2 ++ ", " ++ toString c.1

/-- `date-fns` `format(date, "LLL dd, y")`: throws a `RangeError` on an
invalid date (modelled as `none`), otherwise formats the local calendar day. -/
def formatDate (d : JSDate) : Option String := d.map formatLLL

/-- Source `formatDateRange` (the `useCallback` closed over `placeholder`):
placeholder when `from` is absent, a single formatted date when `to` is
absent or both bounds have the same time value, otherwise the dash-joined
pair.  The `Option` result propagates the `format` throw on invalid dates. -/
def formatDateRange (range : Option DateRange) (placeholder : String) :
    Option String :=
  match range with
  | none => some placeholder
  | some r =>
    match r.from_ with
    | none => some placeholder
    | some f =>
      match r.to_ with
      | none => formatDate f
      | some t =>
        if jsSameTime f t then formatDate f
        else
          match formatDate f, formatDate t with
          | some a, some b => some (a ++ " - " ++ b)
          | _, _ => none

/-- `date-fns` `startOfDay` on a UTC host: local midnight of the day. -/
def startOfDayMs (ms : Int) : Int := 86400000 * (ms / 86400000)

/-- `date-fns` `endOfDay` on a UTC host: 23:59:59.999 of the day. -/
def endOfDayMs (ms : Int) : Int := startOfDayMs ms + 86399999

/-- `date-fns` `subDays` on a UTC host (no DST): an exact day shift. -/
def subDaysMs (ms n : Int) : Int := ms - n * 86400000

/-- Successor month with year rollover. -/
def nextMonth (y m : Int) : Int × Int := if m = 12 then (y + 1, 1) else (y, m + 1)

/-- `date-fns` `startOfMonth` on a UTC host: midnight of day 1 of the month. -/
def startOfMonthMs (ms : Int) : Int :=
  let c := civilFromDays (dayOfMs ms)
  86400000 * daysFromCivil c.1 c.2.1 1

/-- `date-fns` `endOfMonth` on a UTC host: 23:59:59.999 of the last day of
the month, i.e. one millisecond before the start of the next month. -/
def endOfMonthMs (ms : Int) : Int :=
  let c := civilFromDays (dayOfMs ms)
  let n := nextMonth c.1 c.2.1
  86400000 * daysFromCivil n.1 n.2 1 - 1

/-- Number of days in a civil month. -/
def monthLength (y m : Int) : Int :=
  let n := nextMonth y m
  daysFromCivil n.1 n.2 1 - daysFromCivil y m 1

/-- `date-fns` `subMonths` on a UTC host: step the civil month back by `n`,
clamping the day-of-month into the target month and keeping the
time-of-day. -/
def subMonthsMs (ms n : Int) : Int :=
  let day := dayOfMs ms
  let timeOfDay := ms - 86400000 * day
  let c := civilFromDays day
  let total := 12 * c.1 + (c.2.1 - 1) - n
  let y := total / 12
  let m := total % 12 + 1
  let d := min c.2.2 (monthLength y m)
  86400000 * daysFromCivil y m d + timeOfDay

/-- Source `defaultPredefinedRanges`, as a function of the clock reading
`now` (each entry of the source constructs `new Date()` at module
evaluation time; the spec fixes a single catalog-construction instant). -/
def defaultPredefinedRanges (now : Int) : List PredefinedRange :=
  [ { label := "Today",
      value := { from_ := some (some (startOfDayMs now)),
                 to_ := some (some (endOfDayMs now)) },
      description := some "Select today\x27s date" },
    { label := "Yesterday",
      value := { from_ := some (some (startOfDayMs (subDaysMs now 1))),
                 to_ := some (some (endOfDayMs (subDaysMs now 1))) },
      description := some "Select yesterday\x27s date" },
    { label := "Last 7 Days",
      value := { from_ := some (some (subDaysMs now 6)),
                 to_ := some (some now) },
      description := some "Select the last 7 days" },
    { label := "Last 30 Days",
      value := { from_ := some (some (subDaysMs now 29)),
                 to_ := some (some now) },
      description := some "Select the last 30 days" },
    { label := "This Month",
      value := { from_ := some (some (startOfMonthMs now)),
                 to_ := some (some (endOfMonthMs now)) },
      description := some "Select the current month" },
    { label := "Last Month",
      value := { from_ := some (some (startOfMonthMs (subMonthsMs now 1))),
                 to_ := some (some (endOfMonthMs (subMonthsMs now 1))) },
      description := some "Select the previous month" } ]

/-- The configuration flags of the component that the handlers read
(defaults in the source: all three are `true`). -/
structure Config where
  closeOnClear : Bool
  applyOnPredefinedSelect : Bool
  clearOnSelect : Bool
deriving DecidableEq, Repr

/-- The component's own state: the popover `open` flag and the `tempRange`
draft.  The committed `value` prop is owned by the caller and is not part
of this state. -/
structure PickerState where
  isOpen : Bool
  tempRange : Option DateRange
deriving DecidableEq, Repr

/-- Source `handleRangeSelect` (the calendar's `onSelect`, fired on every
intermediate drag step): `setTempRange(range)`, nothing else. -/
def handleRangeSelect (range : Option DateRange) (s : PickerState) :
    PickerState × Option (Option DateRange) :=
  ({ s with tempRange := range }, none)

/-- Source `handlePredefinedRangeSelect`: `setTempRange(range)`, and when
`applyOnPredefinedSelect` also `onChange?.(range)` and `setOpen(false)`. -/
def handlePredefinedRangeSelect (cfg : Config) (range : DateRange)
    (s : PickerState) : PickerState × Option (Option DateRange) :=
  let s1 := { s with tempRange := some range }
  if cfg.applyOnPredefinedSelect then ({ s1 with isOpen := false }, some (some range))
  else (s1, none)

/-- Source `handleApply`: when `!tempRange || isValidDateRange(tempRange)`,
`onChange?.(tempRange)` and `setOpen(false)`; otherwise nothing happens. -/
def handleApply (s : PickerState) : PickerState × Option (Option DateRange) :=
  if s.tempRange.isNone || isValidDateRange s.tempRange then
    ({ s with isOpen := false }, some s.tempRange)
  else (s, none)

/-- Source `handleClear`: `setTempRange(undefined)`; when `clearOnSelect`
also `onChange?.(undefined)` and, when `closeOnClear` too, `setOpen(false)`. -/
def handleClear (cfg : Config) (s : PickerState) :
    PickerState × Option (Option DateRange) :=
  let s1 := { s with tempRange := none }
  if cfg.clearOnSelect then
    (if cfg.closeOnClear then { s1 with isOpen := false } else s1, some none)
  else (s1, none)

/-- Source `handleOpenChange` (the popover's `onOpenChange`, fired by
disclosure-close requests such as an outside click or escape):
`setOpen(newOpen)`, and when closing with `applyOnPredefinedSelect`
disabled, `setTempRange(value)` — `value` is the committed prop. -/
def handleOpenChange (cfg : Config) (value : Option DateRange) (newOpen : Bool)
    (s : PickerState) : PickerState × Option (Option DateRange) :=
  let s1 := { s with isOpen := newOpen }
  if !newOpen && !cfg.applyOnPredefinedSelect then
    ({ s1 with tempRange := value }, none)
  else (s1, none)

-- Sanity checks of the calendar arithmetic against known dates.
example : daysFromCivil 1970 1 1 = 0 := by decide
example : civilFromDays 0 = (1970, 1, 1) := by decide
example : civilFromDays 19727 = (2024, 1, 5) := by decide
example : daysFromCivil 2024 1 5 = 19727 := by decide
example : formatLLL (19727 * 86400000) = "Jan 05, 2024" := by decide
example : civilFromDays (-1) = (1969, 12, 31) := by decide

/-- The first day of a month strictly precedes the first day of the next
month, for every integer year and even for out-of-range month numbers (the
formulas of `daysFromCivil` extrapolate monotonically). -/
lemma monthStart_lt_nextMonthStart (y m : Int) :
    daysFromCivil y m 1 < daysFromCivil (nextMonth y m).1 (nextMonth y m).2 1 := by
  by_cases h12 : m = 12
  · subst h12
    simp only [daysFromCivil, nextMonth, if_pos rfl]
    norm_num
  · by_cases h2 : m ≤ 2
    · by_cases h1 : m ≤ 1
      · have hss : m + 1 ≤ 2 := by omega
        simp only [daysFromCivil, nextMonth, if_neg h12, if_pos h2, if_pos hss,
          if_neg (by omega : ¬ 2 < m), if_neg (by omega : ¬ 2 < m + 1)]
        omega
      · have hm : m = 2 := by omega
        subst hm
        simp only [daysFromCivil, nextMonth, if_neg h12]
        norm_num
        omega
    · simp only [daysFromCivil, nextMonth, if_neg h12, if_neg h2,
        if_neg (by omega : ¬ m + 1 ≤ 2), if_pos (by omega : 2 < m),
        if_pos (by omega : 2 < m + 1)]
      omega

/-- For every instant, the start of its month is at or before the end of its
month. -/
lemma startOfMonthMs_le_endOfMonthMs (ms : Int) :
    startOfMonthMs ms ≤ endOfMonthMs ms := by
  have h := monthStart_lt_nextMonthStart (civilFromDays (dayOfMs ms)).1
    (civilFromDays (dayOfMs ms)).2.1
  simp only [startOfMonthMs, endOfMonthMs]
  omega

/-- Every entry of the default predefined-range catalog is a valid date
range, whatever the clock read at catalog construction. -/
lemma defaultPredefinedRanges_valid (now : Int) :
    ∀ pr ∈ defaultPredefinedRanges now, isValidDateRange (some pr.value) = true := by
  intro pr hpr
  simp only [defaultPredefinedRanges, List.mem_cons, List.not_mem_nil, or_false] at hpr
  rcases hpr with rfl | rfl | rfl | rfl | rfl | rfl
  · simp [isValidDateRange, isValid, jsDateLe, startOfDayMs, endOfDayMs]
  · simp [isValidDateRange, isValid, jsDateLe, startOfDayMs, endOfDayMs]
  · simp [isValidDateRange, isValid, jsDateLe, subDaysMs]
  · simp [isValidDateRange, isValid, jsDateLe, subDaysMs]
  · simp only [isValidDateRange, isValid, jsDateLe, Option.isSome, Bool.true_and,
      decide_eq_true_eq]
    exact startOfMonthMs_le_endOfMonthMs now
  · simp only [isValidDateRange, isValid, jsDateLe, Option.isSome, Bool.true_and,
      decide_eq_true_eq]
    exact startOfMonthMs_le_endOfMonthMs (subMonthsMs now 1)

/-- C1: when the draft is present but not a valid date range, `apply()` is a
no-op — no callback is emitted, the draft is unchanged, and the disclosure
state (in particular an open disclosure) is untouched; when the draft is
absent or `isValidDateRange` holds of it, `apply()` emits the draft as the
new committed value and requests disclosure close. -/
theorem handleApply_spec (s : PickerState) :
    (s.tempRange ≠ none ∧ isValidDateRange s.tempRange = false →
      handleApply s = (s, none)) ∧
    (s.tempRange = none ∨ isValidDateRange s.tempRange = true →
      handleApply s = ({ s with isOpen := false }, some s.tempRange)) := by
  constructor
  · rintro ⟨hp, hv⟩
    have hn : s.tempRange.isNone = false := by
      rcases h : s.tempRange with _ | r
      · exact absurd h hp
      · rfl
    simp [handleApply, hn, hv]
  · rintro (hn | hv)
    · simp [handleApply, hn]
    · simp [handleApply, hv]

/-- Witness for C1: both branches of `handleApply_spec` at concrete states —
an open disclosure with a partial draft stays exactly as it was, and an
absent draft is emitted with the disclosure closed. -/
theorem handleApply_spec_witness :
    handleApply ⟨true, some ⟨some (some 0), none⟩⟩ =
      (⟨true, some ⟨some (some 0), none⟩⟩, none) ∧
    handleApply ⟨true, none⟩ = (⟨false, none⟩, some none) :=
  ⟨(handleApply_spec ⟨true, some ⟨some (some 0), none⟩⟩).1 ⟨by decide, by decide⟩,
   (handleApply_spec ⟨true, none⟩).2 (Or.inl rfl)⟩

/-- C5: a disclosure-close request arriving through the popover's
`onOpenChange` (outside click, escape) closes the disclosure and fires no
callback; the draft is reset to the current committed value exactly when the
apply-on-predefined-select option is disabled, and is left unchanged when
that option is enabled. -/
theorem handleOpenChange_close_spec (cfg : Config) (value : Option DateRange)
    (s : PickerState) :
    handleOpenChange cfg value false s =
      ({ isOpen := false,
         tempRange := if cfg.applyOnPredefinedSelect then s.tempRange else value },
       none) := by
  rcases cfg with ⟨cc, ap, cs⟩
  cases ap <;> simp [handleOpenChange]

/-- C6: `clear()` always clears the draft; it emits "no selection" to the
caller exactly when clear-on-select is enabled, and it closes the disclosure
exactly when clear-on-select and close-on-clear are both enabled. -/
theorem handleClear_spec (cfg : Config) (s : PickerState) :
    handleClear cfg s =
      ({ isOpen := if cfg.clearOnSelect && cfg.closeOnClear then false else s.isOpen,
         tempRange := none },
       if cfg.clearOnSelect then some none else none) := by
  rcases cfg with ⟨cc, ap, cs⟩
  cases cs <;> cases cc <;> simp [handleClear]

/-- C7: `selectPredefinedRange(range)` sets the draft to the range; exactly
when apply-on-predefined-select is enabled it also emits the range to the
caller and closes the disclosure. -/
theorem handlePredefinedRangeSelect_spec (cfg : Config) (range : DateRange)
    (s : PickerState) :
    handlePredefinedRangeSelect cfg range s =
      ({ isOpen := if cfg.applyOnPredefinedSelect then false else s.isOpen,
         tempRange := some range },
       if cfg.applyOnPredefinedSelect then some (some range) else none) := by
  rcases cfg with ⟨cc, ap, cs⟩
  cases ap <;> simp [handlePredefinedRangeSelect]

/-- C9 counterexample: a second `apply()` with no intervening draft change
does produce a duplicate emission.  From an open disclosure with the valid
one-day draft `[0 ms, 86400000 ms]`, the first `apply()` emits the draft;
running `apply()` again on the resulting state emits the same draft a second
time instead of emitting nothing. -/
theorem handleApply_reemits_cex :
    (handleApply (handleApply ⟨true, some ⟨some (some 0), some (some 86400000)⟩⟩).1).2 =
      some (some ⟨some (some 0), some (some 86400000)⟩) ∧
    (handleApply (handleApply ⟨true, some ⟨some (some 0), some (some 86400000)⟩⟩).1).2 ≠
      none := by
  constructor
  · rfl
  · decide

/-- C9 amended: `apply()` is idempotent as a state-and-emission transformer —
a second call with no intervening draft change leaves the controller state
exactly as after the first call and produces exactly the emission the first
call produced (in particular, a successful apply re-emits the same committed
value; it does not go silent). -/
theorem handleApply_idempotent (s : PickerState) :
    handleApply (handleApply s).1 = handleApply s := by
  by_cases h : s.tempRange.isNone = true ∨ isValidDateRange s.tempRange = true
  · have hg : (s.tempRange.isNone || isValidDateRange s.tempRange) = true := by
      rcases h with h | h <;> simp [h]
    simp [handleApply, hg]
  · have hg : (s.tempRange.isNone || isValidDateRange s.tempRange) = false := by
      push_neg at h
      simp [h.1, h.2]
    simp [handleApply, hg]

/-- C10: with clear-on-select disabled, `clear()` only clears the draft — the
disclosure state is untouched even when close-on-clear is enabled, and no
callback fires (so the caller-owned committed value cannot change either,
emissions being the only channel back to the caller). -/
theorem handleClear_local_frame_spec (closeOnClear applyOnPredefinedSelect : Bool)
    (s : PickerState) :
    handleClear ⟨closeOnClear, applyOnPredefinedSelect, false⟩ s =
      ({ s with tempRange := none }, none) := by
  simp [handleClear]

/-- C3: `isValidDateRange(r)` holds exactly when both bounds are present,
both are valid dates (have a non-NaN time value), and `from` is at or before
`to` as instants. -/
theorem isValidDateRange_spec (r : Option DateRange) :
    isValidDateRange r = true ↔
      ∃ rr a b, r = some rr ∧ rr.from_ = some (some a) ∧ rr.to_ = some (some b) ∧
        a ≤ b := by
  constructor
  · intro h
    rcases r with _ | ⟨fo, to_⟩
    · simp [isValidDateRange] at h
    · rcases fo with _ | f
      · simp [isValidDateRange] at h
      · rcases to_ with _ | t
        · simp [isValidDateRange] at h
        · rcases f with _ | a
          · simp [isValidDateRange, isValid] at h
          · rcases t with _ | b
            · simp [isValidDateRange, isValid] at h
            · refine ⟨_, a, b, rfl, rfl, rfl, ?_⟩
              simpa [isValidDateRange, isValid, jsDateLe] using h
  · rintro ⟨rr, a, b, rfl, hf, ht, hab⟩
    rcases rr with ⟨fo, to_⟩
    cases hf
    cases ht
    simp [isValidDateRange, isValid, jsDateLe, hab]

/-- C4: `isRangeEqual(a, b)` holds exactly when both ranges are present and
complete and the two bounds agree under `toDateString`, i.e. on their local
calendar day, ignoring time-of-day.  In particular two complete ranges whose
bounds fall on the same days at different times compare equal, and a pair
with an incomplete range compares unequal. -/
theorem isRangeEqual_spec (a b : Option DateRange) :
    isRangeEqual a b = true ↔
      ∃ ra rb f1 t1 f2 t2, a = some ra ∧ b = some rb ∧
        ra.from_ = some f1 ∧ ra.to_ = some t1 ∧
        rb.from_ = some f2 ∧ rb.to_ = some t2 ∧
        toDateString f1 = toDateString f2 ∧ toDateString t1 = toDateString t2 := by
  constructor
  · intro h
    rcases a with _ | ⟨fa, ta⟩
    · simp [isRangeEqual] at h
    · rcases b with _ | ⟨fb, tb⟩
      · simp [isRangeEqual] at h
      · rcases fa with _ | f1 <;> rcases ta with _ | t1 <;> rcases fb with _ | f2 <;>
          rcases tb with _ | t2 <;> simp [isRangeEqual] at h
        exact ⟨_, _, f1, t1, f2, t2, rfl, rfl, rfl, rfl, rfl, rfl, h.1, h.2⟩
  · rintro ⟨ra, rb, f1, t1, f2, t2, rfl, rfl, hf1, ht1, hf2, ht2, he1, he2⟩
    rcases ra with ⟨fa, ta⟩
    rcases rb with ⟨fb, tb⟩
    cases hf1
    cases ht1
    cases hf2
    cases ht2
    simp [isRangeEqual, he1, he2]

/-- C8: `formatDateRange` returns the placeholder when the range or its
`from` bound is absent; returns the single formatted `from` date when `to`
is absent or when `from` and `to` are the identical instant; and otherwise
returns the dash-joined pair of formatted bounds in the fixed `LLL dd, y`
format.  A complete range whose bounds are the identical instant therefore
formats as one date, not a dash-joined pair. -/
theorem formatDateRange_spec (placeholder : String) (t : Option JSDate)
    (f : JSDate) (mf mt : Int) :
    formatDateRange none placeholder = some placeholder ∧
    formatDateRange (some ⟨none, t⟩) placeholder = some placeholder ∧
    formatDateRange (some ⟨some f, none⟩) placeholder = formatDate f ∧
    formatDateRange (some ⟨some (some mf), some (some mt)⟩) placeholder =
      some (if mf = mt then formatLLL mf
            else formatLLL mf ++ " - " ++ formatLLL mt) := by
  refine ⟨rfl, rfl, rfl, ?_⟩
  by_cases h : mf = mt <;> simp [formatDateRange, jsSameTime, formatDate, h]

/-- C2 counterexample: a range emitted via a predefined-range selection need
not be complete and valid.  The catalog is caller-supplied and unvalidated:
selecting the backwards entry `{from: day 1, to: day 0}` with auto-apply
enabled emits exactly that invalid range. -/
theorem predefinedSelect_emits_unvalidated_cex :
    (handlePredefinedRangeSelect ⟨true, true, true⟩
        ⟨some (some 86400000), some (some 0)⟩ ⟨true, none⟩).2 =
      some (some ⟨some (some 86400000), some (some 0)⟩) ∧
    isValidDateRange (some ⟨some (some 86400000), some (some 0)⟩) = false := by
  decide

/-- C2 amended: the outbound callback fires only at the commit points — never
on an intermediate calendar drag step; `apply()` emits exactly when its
validity gate passes, and then only an absent draft or a valid range;
`clear()` emits only "no selection", and only with clear-on-select enabled;
a predefined-range selection emits, only with auto-apply enabled, the
selected catalog entry verbatim and unvalidated — such an emission is
complete and valid whenever the catalog entry is, which every entry of the
default catalog is, but a caller-supplied catalog entry need not be. -/
theorem emission_policy_spec (cfg : Config) (range : DateRange)
    (draft : Option DateRange) (s : PickerState) (v : Option DateRange)
    (now : Int) :
    (handleRangeSelect draft s).2 = none ∧
    (handleApply s).2 =
      (if s.tempRange.isNone || isValidDateRange s.tempRange
       then some s.tempRange else none) ∧
    ((handleApply s).2 = some v → v = none ∨ isValidDateRange v = true) ∧
    (handleClear cfg s).2 = (if cfg.clearOnSelect then some none else none) ∧
    (handlePredefinedRangeSelect cfg range s).2 =
      (if cfg.applyOnPredefinedSelect then some (some range) else none) ∧
    (∀ pr ∈ defaultPredefinedRanges now, isValidDateRange (some pr.value) = true) := by
  refine ⟨rfl, ?_, ?_, ?_, ?_, defaultPredefinedRanges_valid now⟩
  · by_cases hg : (s.tempRange.isNone || isValidDateRange s.tempRange) = true
    · simp [handleApply, hg]
    · simp [handleApply, Bool.eq_false_iff.mpr hg, hg]
  · intro h
    by_cases hg : (s.tempRange.isNone || isValidDateRange s.tempRange) = true
    · have hv : v = s.tempRange := by
        simp [handleApply, hg] at h
        exact h.symm
      subst hv
      rcases Bool.or_eq_true_iff.mp hg with hn | hval
      · exact Or.inl (Option.isNone_iff_eq_none.mp hn)
      · exact Or.inr hval
    · simp [handleApply, Bool.eq_false_iff.mpr hg, hg] at h
  · rcases cfg with ⟨cc, ap, cs⟩
    cases cs <;> cases cc <;> simp [handleClear]
  · rcases cfg with ⟨cc, ap, cs⟩
    cases ap <;> simp [handlePredefinedRangeSelect]

/-- Witness for C2: the apply-emission conjunct at a state holding the valid
one-day draft `[0, 86400000]`, and the default-catalog conjunct at the
`Today` entry of the catalog built at `now = 0`. -/
theorem emission_policy_spec_witness :
    ((some ⟨some (some 0), some (some 86400000)⟩ : Option DateRange) = none ∨
      isValidDateRange (some ⟨some (some 0), some (some 86400000)⟩) = true) ∧
    isValidDateRange (some (⟨"Today", ⟨some (some 0), some (some 86399999)⟩,
        some "Select today\x27s date"⟩ : PredefinedRange).value) = true := by
  constructor
  · exact (emission_policy_spec ⟨true, true, true⟩ ⟨none, none⟩ none
      ⟨true, some ⟨some (some 0), some (some 86400000)⟩⟩
      (some ⟨some (some 0), some (some 86400000)⟩) 0).2.2.1 (by decide)
  · exact (emission_policy_spec ⟨true, true, true⟩ ⟨none, none⟩ none
      ⟨true, none⟩ none 0).2.2.2.2.2 _ (by decide)

end ClocketUI
